import Mathlib

/-!
Verification of the kson Python JNI bridge (src/lib-python/src/kson/__init__.py
and src/lib-python/lib.py), shallowly embedded in Lean 4.

The bridge's stateful JNI machinery is modelled as explicit state passing over
a BridgeState record; physical JNI operations are recorded in a trace. Pure
value-marshaling functions (UTF-16 string conversion, list conversion, class
name dispatch) are modelled as pure functions on the values the source code
manipulates.
-/

namespace Kson

/-- A physical operation performed against the embedded JVM, as recorded by the
model. attachThread and detachThread are the AttachCurrentThread and
DetachCurrentThread calls of AttachedJniThread; the reference operations mirror
NewGlobalRef, DeleteGlobalRef, DeleteLocalRef; the call operations mirror
NewObject, Call*Method and GetStaticObjectField. -/
inductive PhysOp where
  | attachThread : PhysOp
  | detachThread : PhysOp
  | newGlobalRef (localRef globalRef : Nat) : PhysOp
  | deleteGlobalRef (globalRef : Nat) : PhysOp
  | deleteLocalRef (localRef : Nat) : PhysOp
  | newObject (className : String) : PhysOp
  | callMethod (className funcName : String) : PhysOp
  | getStaticField (className fieldName : String) : PhysOp
  | newString : PhysOp
deriving DecidableEq, Repr

/-- State of one OS thread interacting with the embedded JVM.
tlsAttached models the truthiness of the thread-local tls.attached_jni_thread;
pendingException models the JNI pending-exception flag observed by
ExceptionCheck; localRefs and globalRefs model the live reference tables;
nextRef supplies fresh reference handles; trace records the physical JNI
operations in order. -/
structure BridgeState where
  tlsAttached : Bool
  pendingException : Bool
  localRefs : List Nat
  globalRefs : List Nat
  nextRef : Nat
  trace : List PhysOp
deriving DecidableEq, Repr

/-- Number of physical AttachCurrentThread calls in a trace. -/
def countAttach (t : List PhysOp) : Nat :=
  (t.filter (fun op => match op with | PhysOp.attachThread => true | _ => false)).length

/-- Number of physical DetachCurrentThread calls in a trace. -/
def countDetach (t : List PhysOp) : Nat :=
  (t.filter (fun op => match op with | PhysOp.detachThread => true | _ => false)).length

theorem countAttach_append (a b : List PhysOp) :
    countAttach (a ++ b) = countAttach a + countAttach b := by
  simp [countAttach, List.filter_append]

theorem countDetach_append (a b : List PhysOp) :
    countDetach (a ++ b) = countDetach a + countDetach b := by
  simp [countDetach, List.filter_append]

theorem countAttach_attach : countAttach [PhysOp.attachThread] = 1 := rfl

theorem countAttach_detach : countAttach [PhysOp.detachThread] = 0 := rfl

theorem countDetach_attach : countDetach [PhysOp.attachThread] = 0 := rfl

theorem countDetach_detach : countDetach [PhysOp.detachThread] = 1 := rfl

/-- AttachedJniThread.__enter__: returns the should_detach flag and the state.
If tls.attached_jni_thread is already set the scope reuses it and performs no
physical operation; otherwise it calls AttachCurrentThread, stores the
environment in thread-local storage and remembers that it must detach. -/
def attachedEnter (s : BridgeState) : Bool × BridgeState :=
  if s.tlsAttached then (false, s)
  else (true, { s with tlsAttached := true, trace := s.trace ++ [PhysOp.attachThread] })

/-- AttachedJniThread.__exit__: calls DetachCurrentThread and clears the
thread-local slot only when this scope's __enter__ performed the attach. -/
def attachedExit (should_detach : Bool) (s : BridgeState) : BridgeState :=
  if should_detach then
    { s with tlsAttached := false, trace := s.trace ++ [PhysOp.detachThread] }
  else s

/-- The with AttachedJniThread() as env: body statement. __exit__ runs on every
exit path, including when the body's result carries an error value. -/
def withAttachedJniThread {α : Type} (body : BridgeState → α × BridgeState)
    (s : BridgeState) : α × BridgeState :=
  let r := attachedEnter s
  let b := body r.2
  (b.1, attachedExit r.1 b.2)

theorem withAttachedJniThread_of_attached {α : Type} (body : BridgeState → α × BridgeState)
    (t : BridgeState) (ht : t.tlsAttached = true) :
    withAttachedJniThread body t = body t := by
  simp [withAttachedJniThread, attachedEnter, attachedExit, ht]

/-- _delete_local_ref: DeleteLocalRef frees the local-reference-table slot. -/
def delete_local_ref (l : Nat) (s : BridgeState) : BridgeState :=
  { s with localRefs := s.localRefs.filter (fun x => x ≠ l),
           trace := s.trace ++ [PhysOp.deleteLocalRef l] }

/-- Body of _delete_global_ref: a single DeleteGlobalRef under the attachment. -/
def delete_global_ref_body (g : Nat) (s : BridgeState) : Unit × BridgeState :=
  ((), { s with globalRefs := s.globalRefs.filter (fun x => x ≠ g),
                trace := s.trace ++ [PhysOp.deleteGlobalRef g] })

/-- _delete_global_ref: runs DeleteGlobalRef inside a with AttachedJniThread
scope, so an unattached releasing thread attaches first and detaches after. -/
def delete_global_ref (g : Nat) (s : BridgeState) : BridgeState :=
  (withAttachedJniThread (delete_global_ref_body g) s).2

/-- The finalizer registered on a pinned reference by ffi.gc. -/
inductive Finalizer where
  | deleteGlobalRefFin : Finalizer
deriving DecidableEq, Repr

/-- A pinned reference as returned by _to_gc_global_ref: the global handle
together with the finalizer ffi.gc will run when the host wrapper is
collected. -/
structure GcRef where
  handle : Nat
  finalizer : Finalizer
deriving DecidableEq, Repr

/-- NewGlobalRef: allocates a fresh global reference to the object behind the
given local reference. -/
def newGlobalRefOp (l : Nat) (s : BridgeState) : Nat × BridgeState :=
  let g := s.nextRef
  (g, { s with nextRef := g + 1, globalRefs := s.globalRefs ++ [g],
               trace := s.trace ++ [PhysOp.newGlobalRef l g] })

/-- _to_gc_global_ref: NewGlobalRef on the input local reference, then
_delete_local_ref on it, then ffi.gc tying _delete_global_ref to the returned
handle. -/
def to_gc_global_ref (l : Nat) (s : BridgeState) : GcRef × BridgeState :=
  let r := newGlobalRefOp l s
  let s2 := delete_local_ref l r.2
  ({ handle := r.1, finalizer := Finalizer.deleteGlobalRefFin }, s2)

/-- Initial thread state: not attached, no pending exception, empty tables. -/
def initState : BridgeState :=
  { tlsAttached := false, pendingException := false, localRefs := [],
    globalRefs := [], nextRef := 0, trace := [] }

/-- An already-attached thread state. -/
def attachedState : BridgeState :=
  { initState with tlsAttached := true }

/-- C1: AttachedJniThread is reentrant. On an already-attached thread (the
thread-local token is set) an inner scope is a no-op around its body: zero
physical attach and zero physical detach operations occur for it, whatever its
body does. On a thread that is not attached, nesting one scope inside another
whose inner body performs no physical attach or detach leaves a trace with
exactly one more AttachCurrentThread and exactly one more DetachCurrentThread
than before, both performed by the outermost scope, and the thread ends
detached. -/
theorem attachedJniThread_reentrant {α : Type} (g : BridgeState → α × BridgeState)
    (t s : BridgeState) (ht : t.tlsAttached = true) (hs : s.tlsAttached = false)
    (hg : ∀ u : BridgeState, countAttach (g u).2.trace = countAttach u.trace ∧
          countDetach (g u).2.trace = countDetach u.trace) :
    withAttachedJniThread g t = g t ∧
    countAttach (withAttachedJniThread (fun u => withAttachedJniThread g u) s).2.trace
      = countAttach s.trace + 1 ∧
    countDetach (withAttachedJniThread (fun u => withAttachedJniThread g u) s).2.trace
      = countDetach s.trace + 1 ∧
    (withAttachedJniThread (fun u => withAttachedJniThread g u) s).2.tlsAttached = false := by
  refine ⟨withAttachedJniThread_of_attached g t ht, ?_, ?_, ?_⟩ <;>
    simp [withAttachedJniThread, attachedEnter, attachedExit, hs, countAttach_append,
      countDetach_append, hg, countAttach_attach, countAttach_detach, countDetach_attach,
      countDetach_detach]

/-- Closed witness for C1: the trivial body on concrete states. -/
theorem attachedJniThread_reentrant_witness :
    withAttachedJniThread (fun u => ((), u)) attachedState = ((), attachedState) ∧
    countAttach (withAttachedJniThread
      (fun u => withAttachedJniThread (fun v => ((), v)) u) initState).2.trace
      = countAttach initState.trace + 1 ∧
    countDetach (withAttachedJniThread
      (fun u => withAttachedJniThread (fun v => ((), v)) u) initState).2.trace
      = countDetach initState.trace + 1 ∧
    (withAttachedJniThread
      (fun u => withAttachedJniThread (fun v => ((), v)) u) initState).2.tlsAttached = false :=
  attachedJniThread_reentrant (fun u => ((), u)) attachedState initState rfl rfl
    (fun _ => ⟨rfl, rfl⟩)

/-- C5: _delete_global_ref releases a pinned reference from any thread. When
the releasing thread holds no attachment it physically attaches, performs
exactly one DeleteGlobalRef under that attachment, then detaches, ending
detached; when the thread is already attached it performs only the single
DeleteGlobalRef and stays attached. -/
theorem delete_global_ref_attachment (g : Nat) (s : BridgeState) :
    (s.tlsAttached = false →
      (delete_global_ref g s).trace
        = s.trace ++ [PhysOp.attachThread, PhysOp.deleteGlobalRef g, PhysOp.detachThread] ∧
      (delete_global_ref g s).tlsAttached = false) ∧
    (s.tlsAttached = true →
      (delete_global_ref g s).trace = s.trace ++ [PhysOp.deleteGlobalRef g] ∧
      (delete_global_ref g s).tlsAttached = true) := by
  constructor <;> intro h <;>
    simp [delete_global_ref, withAttachedJniThread, attachedEnter, attachedExit,
      delete_global_ref_body, h]

/-- Closed witness for C5: release of handle 3 from a detached and from an
attached thread. -/
theorem delete_global_ref_attachment_witness :
    ((delete_global_ref 3 initState).trace
        = initState.trace ++ [PhysOp.attachThread, PhysOp.deleteGlobalRef 3, PhysOp.detachThread] ∧
      (delete_global_ref 3 initState).tlsAttached = false) ∧
    ((delete_global_ref 3 attachedState).trace
        = attachedState.trace ++ [PhysOp.deleteGlobalRef 3] ∧
      (delete_global_ref 3 attachedState).tlsAttached = true) :=
  ⟨(delete_global_ref_attachment 3 initState).1 rfl,
   (delete_global_ref_attachment 3 attachedState).2 rfl⟩

/-- C6: _to_gc_global_ref pins a transient reference. For every local
reference in the local-reference table, it first creates a global reference to
the same object and then immediately deletes the input local reference, so
after it returns the local slot is freed, the returned handle is the new
global one, and the finalizer tied to the returned handle is
_delete_global_ref. -/
theorem to_gc_global_ref_pins (l : Nat) (s : BridgeState) (_hl : l ∈ s.localRefs) :
    l ∉ (to_gc_global_ref l s).2.localRefs ∧
    (to_gc_global_ref l s).1.handle ∈ (to_gc_global_ref l s).2.globalRefs ∧
    (to_gc_global_ref l s).1.finalizer = Finalizer.deleteGlobalRefFin ∧
    (to_gc_global_ref l s).2.trace
      = s.trace ++ [PhysOp.newGlobalRef l (to_gc_global_ref l s).1.handle,
                    PhysOp.deleteLocalRef l] := by
  simp [to_gc_global_ref, newGlobalRefOp, delete_local_ref, List.mem_filter]

/-- Closed witness for C6: pinning local reference 0 held in a concrete
state. -/
theorem to_gc_global_ref_pins_witness :
    0 ∉ (to_gc_global_ref 0 { initState with localRefs := [0], nextRef := 1 }).2.localRefs ∧
    (to_gc_global_ref 0 { initState with localRefs := [0], nextRef := 1 }).1.handle
      ∈ (to_gc_global_ref 0 { initState with localRefs := [0], nextRef := 1 }).2.globalRefs ∧
    (to_gc_global_ref 0 { initState with localRefs := [0], nextRef := 1 }).1.finalizer
      = Finalizer.deleteGlobalRefFin ∧
    (to_gc_global_ref 0 { initState with localRefs := [0], nextRef := 1 }).2.trace
      = { initState with localRefs := [0], nextRef := 1 }.trace
        ++ [PhysOp.newGlobalRef 0
              (to_gc_global_ref 0 { initState with localRefs := [0], nextRef := 1 }).1.handle,
            PhysOp.deleteLocalRef 0] :=
  to_gc_global_ref_pins 0 { initState with localRefs := [0], nextRef := 1 } (by decide)

/-- Host-visible errors raised by the bridge. unreachableCode models the
raised Exception with message "entered unreachable code", the error the spec
names NativeInvocationError; valueError carries the name of the offending
parameter; runtimeError carries its message text. -/
inductive PyErr where
  | valueError (param : String) : PyErr
  | typeError : PyErr
  | runtimeError (msg : String) : PyErr
  | unreachableCode : PyErr
  | unicodeEncodeError : PyErr
  | unicodeDecodeError : PyErr
deriving DecidableEq, Repr

/-- _raise_exception_if_any: ExceptionCheck; when an exception is pending it
is described, cleared, and the unrecoverable error is raised. Returns the
raised error (if any) together with the updated state. -/
def raise_exception_if_any (s : BridgeState) : Option PyErr × BridgeState :=
  if s.pendingException then
    (some PyErr.unreachableCode, { s with pendingException := false })
  else (none, s)

/-- _raise_if_null: when the pointer is NULL, first performs the pending
exception check (clearing and raising if one is pending) and otherwise raises
the unrecoverable error anyway; a non-NULL pointer passes through. -/
def raise_if_null (ptr : Option Nat) (s : BridgeState) : Option PyErr × BridgeState :=
  match ptr with
  | none =>
    match raise_exception_if_any s with
    | (some e, s1) => (some e, s1)
    | (none, s1) => (some PyErr.unreachableCode, s1)
  | some _ => (none, s)

/-- _call_method_raw: resolves the class and method (resolution modelled as
succeeding) and performs the Call<X>Method invocation, whose outcome is given
by the oracle pair (raises, ret): raises tells whether the embedded runtime
leaves a pending exception, ret is the returned value. Immediately after the
call, _raise_exception_if_any runs unconditionally. -/
def call_method_raw (className funcName : String) (raises : Bool) (ret : Nat)
    (s : BridgeState) : Except PyErr Nat × BridgeState :=
  let s1 := { s with pendingException := s.pendingException || raises,
                     trace := s.trace ++ [PhysOp.callMethod className funcName] }
  match raise_exception_if_any s1 with
  | (some e, s2) => (Except.error e, s2)
  | (none, s2) => (Except.ok ret, s2)

/-- _call_method: _call_method_raw inside a with AttachedJniThread scope. -/
def call_method (className funcName : String) (raises : Bool) (ret : Nat)
    (s : BridgeState) : Except PyErr Nat × BridgeState :=
  withAttachedJniThread (call_method_raw className funcName raises ret) s

/-- _construct: inside a with AttachedJniThread scope, resolves class and
constructor (modelled as succeeding), NewObject yields a fresh local
reference, then _raise_exception_if_any runs unconditionally, then the local
reference is pinned with _to_gc_global_ref. -/
def construct (className : String) (raises : Bool) (s : BridgeState) :
    Except PyErr GcRef × BridgeState :=
  withAttachedJniThread (fun s1 =>
    let l := s1.nextRef
    let s2 := { s1 with nextRef := l + 1, localRefs := s1.localRefs ++ [l],
                        pendingException := s1.pendingException || raises,
                        trace := s1.trace ++ [PhysOp.newObject className] }
    match raise_exception_if_any s2 with
    | (some e, s3) => (Except.error e, s3)
    | (none, s3) =>
      let r := to_gc_global_ref l s3
      (Except.ok r.1, r.2)) s

/-- _access_static_field: inside a with AttachedJniThread scope, resolves the
class and the static field id (modelled as succeeding), then
GetStaticObjectField returns a value that is NULL iff retNull and leaves a
pending exception iff raises. The value is pinned with _to_gc_global_ref
(NewGlobalRef of NULL stays NULL) and only _raise_if_null inspects it: no
unconditional pending-exception check follows this invocation. -/
def access_static_field (className fieldName : String) (raises retNull : Bool)
    (s : BridgeState) : Except PyErr GcRef × BridgeState :=
  withAttachedJniThread (fun s1 =>
    let s2 := { s1 with pendingException := s1.pendingException || raises,
                        trace := s1.trace ++ [PhysOp.getStaticField className fieldName] }
    if retNull then
      match raise_if_null none s2 with
      | (some e, s3) => (Except.error e, s3)
      | (none, s3) => (Except.error PyErr.unreachableCode, s3)
    else
      let l := s2.nextRef
      let s3 := { s2 with nextRef := l + 1, localRefs := s2.localRefs ++ [l] }
      let r := to_gc_global_ref l s3
      match raise_if_null (some r.1.handle) r.2 with
      | (some e, s4) => (Except.error e, s4)
      | (none, s4) => (Except.ok r.1, s4)) s

/-- C7 counterexample: a static-field access performed while the embedded
runtime has a pending exception but returns a non-NULL value. The bridge
returns the pinned field value as a result and the pending exception is
neither cleared nor surfaced, contradicting the claim that after every native
invocation, static-field access included, a pending exception is checked,
cleared and raised instead of returning a result. -/
theorem exception_check_counterexample :
    (access_static_field "org/kson/Kson" "INSTANCE" true false initState).1
      = Except.ok { handle := 1, finalizer := Finalizer.deleteGlobalRefFin } ∧
    (access_static_field "org/kson/Kson" "INSTANCE" true false initState).2.pendingException
      = true := by
  constructor <;> rfl

/-- C7 as amended: after every method call (_call_method_raw) and every
constructor invocation (_construct) the bridge unconditionally checks for a
pending exception; if one is pending it clears it and raises the
unrecoverable error instead of returning a result, and if none is pending it
returns the result and raises no such error. Static-field access
(_access_static_field) checks for a pending exception only when the retrieved
value is NULL: a NULL value always raises, while a non-NULL value is returned
with the pending-exception flag left exactly as the invocation set it. -/
theorem exception_check_amended (cls mem : String) (raises : Bool) (ret : Nat)
    (s : BridgeState) :
    ((s.pendingException || raises) = true →
      (call_method_raw cls mem raises ret s).1 = Except.error PyErr.unreachableCode ∧
      (call_method_raw cls mem raises ret s).2.pendingException = false) ∧
    ((s.pendingException || raises) = false →
      (call_method_raw cls mem raises ret s).1 = Except.ok ret ∧
      (call_method_raw cls mem raises ret s).2.pendingException = false) ∧
    ((s.pendingException || raises) = true →
      (construct cls raises s).1 = Except.error PyErr.unreachableCode ∧
      (construct cls raises s).2.pendingException = false) ∧
    ((s.pendingException || raises) = false →
      (construct cls raises s).1
        = Except.ok { handle := s.nextRef + 1, finalizer := Finalizer.deleteGlobalRefFin }) ∧
    ((access_static_field cls mem raises false s).1
        = Except.ok { handle := s.nextRef + 1, finalizer := Finalizer.deleteGlobalRefFin }) ∧
    ((access_static_field cls mem raises false s).2.pendingException
        = (s.pendingException || raises)) ∧
    ((access_static_field cls mem raises true s).1 = Except.error PyErr.unreachableCode ∧
      (access_static_field cls mem raises true s).2.pendingException = false) := by
  cases hpe : s.pendingException <;> cases raises <;> cases htl : s.tlsAttached <;>
    simp_all [call_method_raw, construct, access_static_field, raise_exception_if_any,
      raise_if_null, withAttachedJniThread, attachedEnter, attachedExit, to_gc_global_ref,
      newGlobalRefOp, delete_local_ref]

/-- Closed witness for C7 as amended: a concrete raising call and a concrete
clean call on the initial state. -/
theorem exception_check_amended_witness :
    ((call_method_raw "org/kson/Kson" "format" true 7 initState).1
        = Except.error PyErr.unreachableCode ∧
      (call_method_raw "org/kson/Kson" "format" true 7 initState).2.pendingException = false) ∧
    ((call_method_raw "org/kson/Kson" "format" false 7 initState).1 = Except.ok 7 ∧
      (call_method_raw "org/kson/Kson" "format" false 7 initState).2.pendingException = false) :=
  ⟨(exception_check_amended "org/kson/Kson" "format" true 7 initState).1 rfl,
   (exception_check_amended "org/kson/Kson" "format" false 7 initState).2.1 rfl⟩

/-- Position.__init__(line, column): the two None guards run first, each
raising ValueError naming its parameter, and only then is
_construct("org/kson/api/Position", "(II)V", ...) invoked. None is modelled
by Option.none; raises is the oracle for the constructor call outcome. -/
def Position_init (raises : Bool) (line column : Option Int) (s : BridgeState) :
    Except PyErr GcRef × BridgeState :=
  match line with
  | none => (Except.error (PyErr.valueError "line"), s)
  | some _ =>
    match column with
    | none => (Except.error (PyErr.valueError "column"), s)
    | some _ => construct "org/kson/api/Position" raises s

/-- Kson.format(kson, format_options): the two None guards run first, each
raising ValueError naming its parameter; only then are the static INSTANCE
field access and the format method call made. The oracle raises drives the
native-call outcomes and ret the returned string handle. -/
def Kson_format (raises : Bool) (ret : Nat) (kson : Option (List Nat))
    (format_options : Option Nat) (s : BridgeState) : Except PyErr Nat × BridgeState :=
  match kson with
  | none => (Except.error (PyErr.valueError "kson"), s)
  | some _ =>
    match format_options with
    | none => (Except.error (PyErr.valueError "format_options"), s)
    | some _ =>
      match access_static_field "org/kson/Kson" "INSTANCE" raises false s with
      | (Except.error e, s1) => (Except.error e, s1)
      | (Except.ok _, s1) => call_method "org/kson/Kson" "format" raises ret s1

/-- C9: passing None for a non-Optional parameter of a public wrapper
constructor or API method raises ValueError naming the parameter, and the
check runs before any call into the embedded runtime: the returned state is
exactly the input state, so no embedded-runtime state is created or modified
on this error path. Shown for the cited representatives Position.__init__
(parameters line and column) and Kson.format (parameters kson and
format_options); the same generated guard pattern precedes every native call
in the module. -/
theorem none_check_before_native_call (raises : Bool) (ret : Nat) (s : BridgeState) :
    (∀ column : Option Int,
      Position_init raises none column s = (Except.error (PyErr.valueError "line"), s)) ∧
    (∀ line : Int,
      Position_init raises (some line) none s = (Except.error (PyErr.valueError "column"), s)) ∧
    (∀ format_options : Option Nat,
      Kson_format raises ret none format_options s
        = (Except.error (PyErr.valueError "kson"), s)) ∧
    (∀ kson : List Nat,
      Kson_format raises ret (some kson) none s
        = (Except.error (PyErr.valueError "format_options"), s)) :=
  ⟨fun _ => rfl, fun _ => rfl, fun _ => rfl, fun _ => rfl⟩

/-- The concrete host wrapper classes that the sealed-hierarchy downcasts can
produce, one constructor per generated wrapper class. -/
inductive PyWrapper where
  | schemaResultSuccess | schemaResultFailure
  | indentTypeSpaces | indentTypeTabs
  | ksonArray | ksonNull | ksonNumber | ksonObject | ksonString
  | ksonBoolean | ksonEmbed | ksonNumberDecimal | ksonNumberInteger
  | transpileOptionsYaml | transpileOptionsJson
  | resultFailure | resultSuccess
deriving DecidableEq, Repr

/-- SchemaResult._downcast: Python match over the runtime class name; a name
matching no case falls through the match and the function returns None. -/
def SchemaResult_downcast (name : String) : Option PyWrapper :=
  if name = "org.kson.api.SchemaResult$Success" then some PyWrapper.schemaResultSuccess
  else if name = "org.kson.api.SchemaResult$Failure" then some PyWrapper.schemaResultFailure
  else none

/-- IndentType._downcast: same fall-through-to-None shape. -/
def IndentType_downcast (name : String) : Option PyWrapper :=
  if name = "org.kson.api.IndentType$Spaces" then some PyWrapper.indentTypeSpaces
  else if name = "org.kson.api.IndentType$Tabs" then some PyWrapper.indentTypeTabs
  else none

/-- KsonValue._downcast: same fall-through-to-None shape, nine cases. -/
def KsonValue_downcast (name : String) : Option PyWrapper :=
  if name = "org.kson.api.KsonValue$KsonArray" then some PyWrapper.ksonArray
  else if name = "org.kson.api.KsonValue$KsonNull" then some PyWrapper.ksonNull
  else if name = "org.kson.api.KsonValue$KsonNumber" then some PyWrapper.ksonNumber
  else if name = "org.kson.api.KsonValue$KsonObject" then some PyWrapper.ksonObject
  else if name = "org.kson.api.KsonValue$KsonString" then some PyWrapper.ksonString
  else if name = "org.kson.api.KsonValue$KsonBoolean" then some PyWrapper.ksonBoolean
  else if name = "org.kson.api.KsonValue$KsonEmbed" then some PyWrapper.ksonEmbed
  else if name = "org.kson.api.KsonValue$KsonNumber$Decimal" then some PyWrapper.ksonNumberDecimal
  else if name = "org.kson.api.KsonValue$KsonNumber$Integer" then some PyWrapper.ksonNumberInteger
  else none

/-- KsonValue.KsonNumber._downcast: same fall-through-to-None shape. -/
def KsonNumber_downcast (name : String) : Option PyWrapper :=
  if name = "org.kson.api.KsonValue$KsonNumber$Decimal" then some PyWrapper.ksonNumberDecimal
  else if name = "org.kson.api.KsonValue$KsonNumber$Integer" then some PyWrapper.ksonNumberInteger
  else none

/-- TranspileOptions._downcast: same fall-through-to-None shape. -/
def TranspileOptions_downcast (name : String) : Option PyWrapper :=
  if name = "org.kson.api.TranspileOptions$Yaml" then some PyWrapper.transpileOptionsYaml
  else if name = "org.kson.api.TranspileOptions$Json" then some PyWrapper.transpileOptionsJson
  else none

/-- Result._downcast: same fall-through-to-None shape. -/
def Result_downcast (name : String) : Option PyWrapper :=
  if name = "org.kson.api.Result$Failure" then some PyWrapper.resultFailure
  else if name = "org.kson.api.Result$Success" then some PyWrapper.resultSuccess
  else none

/-- The fully-qualified class names present in each static dispatch table. -/
def schemaResultDispatchNames : List String :=
  ["org.kson.api.SchemaResult$Success", "org.kson.api.SchemaResult$Failure"]

def indentTypeDispatchNames : List String :=
  ["org.kson.api.IndentType$Spaces", "org.kson.api.IndentType$Tabs"]

def ksonValueDispatchNames : List String :=
  ["org.kson.api.KsonValue$KsonArray", "org.kson.api.KsonValue$KsonNull",
   "org.kson.api.KsonValue$KsonNumber", "org.kson.api.KsonValue$KsonObject",
   "org.kson.api.KsonValue$KsonString", "org.kson.api.KsonValue$KsonBoolean",
   "org.kson.api.KsonValue$KsonEmbed", "org.kson.api.KsonValue$KsonNumber$Decimal",
   "org.kson.api.KsonValue$KsonNumber$Integer"]

def ksonNumberDispatchNames : List String :=
  ["org.kson.api.KsonValue$KsonNumber$Decimal", "org.kson.api.KsonValue$KsonNumber$Integer"]

def transpileOptionsDispatchNames : List String :=
  ["org.kson.api.TranspileOptions$Yaml", "org.kson.api.TranspileOptions$Json"]

def resultDispatchNames : List String :=
  ["org.kson.api.Result$Failure", "org.kson.api.Result$Success"]

/-- C2 counterexample: for a class name absent from the dispatch table the
downcast does not signal an UnreachableVariant-style error: the Python match
has no default case, so the function falls through and returns the value
None, modelled as Option.none. -/
theorem downcast_counterexample :
    Result_downcast "org.kson.api.Result$Cancelled" = none ∧
    KsonValue_downcast "org.kson.api.KsonValue$KsonDate" = none ∧
    SchemaResult_downcast "com.example.Unknown" = none := by
  refine ⟨?_, ?_, ?_⟩ <;> rfl

/-- C2 as amended: for every class name present in a sealed-hierarchy static
dispatch table the downcast returns the matching concrete host wrapper type;
for every class name not in the table the downcast raises no error and
returns None (the match falls through). -/
theorem downcast_dispatch_amended :
    (SchemaResult_downcast "org.kson.api.SchemaResult$Success"
        = some PyWrapper.schemaResultSuccess ∧
      SchemaResult_downcast "org.kson.api.SchemaResult$Failure"
        = some PyWrapper.schemaResultFailure) ∧
    (IndentType_downcast "org.kson.api.IndentType$Spaces" = some PyWrapper.indentTypeSpaces ∧
      IndentType_downcast "org.kson.api.IndentType$Tabs" = some PyWrapper.indentTypeTabs) ∧
    (KsonValue_downcast "org.kson.api.KsonValue$KsonArray" = some PyWrapper.ksonArray ∧
      KsonValue_downcast "org.kson.api.KsonValue$KsonNull" = some PyWrapper.ksonNull ∧
      KsonValue_downcast "org.kson.api.KsonValue$KsonNumber" = some PyWrapper.ksonNumber ∧
      KsonValue_downcast "org.kson.api.KsonValue$KsonObject" = some PyWrapper.ksonObject ∧
      KsonValue_downcast "org.kson.api.KsonValue$KsonString" = some PyWrapper.ksonString ∧
      KsonValue_downcast "org.kson.api.KsonValue$KsonBoolean" = some PyWrapper.ksonBoolean ∧
      KsonValue_downcast "org.kson.api.KsonValue$KsonEmbed" = some PyWrapper.ksonEmbed ∧
      KsonValue_downcast "org.kson.api.KsonValue$KsonNumber$Decimal"
        = some PyWrapper.ksonNumberDecimal ∧
      KsonValue_downcast "org.kson.api.KsonValue$KsonNumber$Integer"
        = some PyWrapper.ksonNumberInteger) ∧
    (KsonNumber_downcast "org.kson.api.KsonValue$KsonNumber$Decimal"
        = some PyWrapper.ksonNumberDecimal ∧
      KsonNumber_downcast "org.kson.api.KsonValue$KsonNumber$Integer"
        = some PyWrapper.ksonNumberInteger) ∧
    (TranspileOptions_downcast "org.kson.api.TranspileOptions$Yaml"
        = some PyWrapper.transpileOptionsYaml ∧
      TranspileOptions_downcast "org.kson.api.TranspileOptions$Json"
        = some PyWrapper.transpileOptionsJson) ∧
    (Result_downcast "org.kson.api.Result$Failure" = some PyWrapper.resultFailure ∧
      Result_downcast "org.kson.api.Result$Success" = some PyWrapper.resultSuccess) ∧
    (∀ n, n ∉ schemaResultDispatchNames → SchemaResult_downcast n = none) ∧
    (∀ n, n ∉ indentTypeDispatchNames → IndentType_downcast n = none) ∧
    (∀ n, n ∉ ksonValueDispatchNames → KsonValue_downcast n = none) ∧
    (∀ n, n ∉ ksonNumberDispatchNames → KsonNumber_downcast n = none) ∧
    (∀ n, n ∉ transpileOptionsDispatchNames → TranspileOptions_downcast n = none) ∧
    (∀ n, n ∉ resultDispatchNames → Result_downcast n = none) := by
  refine ⟨⟨rfl, rfl⟩, ⟨rfl, rfl⟩, ⟨rfl, rfl, rfl, rfl, rfl, rfl, rfl, rfl, rfl⟩,
    ⟨rfl, rfl⟩, ⟨rfl, rfl⟩, ⟨rfl, rfl⟩, ?_, ?_, ?_, ?_, ?_, ?_⟩ <;>
  · intro n hn
    simp only [schemaResultDispatchNames, indentTypeDispatchNames, ksonValueDispatchNames,
      ksonNumberDispatchNames, transpileOptionsDispatchNames, resultDispatchNames,
      List.mem_cons, List.not_mem_nil, or_false, not_or] at hn
    simp [SchemaResult_downcast, IndentType_downcast, KsonValue_downcast,
      KsonNumber_downcast, TranspileOptions_downcast, Result_downcast, hn]

/-- Closed witness for C2 as amended: the off-table branch at a concrete
unknown class name. -/
theorem downcast_dispatch_amended_witness :
    KsonValue_downcast "org.kson.api.KsonValue$KsonTime" = none :=
  downcast_dispatch_amended.2.2.2.2.2.2.2.2.1
    "org.kson.api.KsonValue$KsonTime" (by decide)

/-- LIBRARY_NAMES of the packaged module src/lib-python/src/kson/__init__.py,
queried with dict.get (None when the key is absent). -/
def LIBRARY_NAMES_pkg (platform : String) : Option String :=
  if platform = "win32" then some "kson.dll"
  else if platform = "darwin" then some "libkson.dylib"
  else if platform = "linux" then some "libkson.so"
  else none

/-- Library resolution in the packaged module: lib_name =
LIBRARY_NAMES.get(sys.platform); when it is None a RuntimeError naming the
platform is raised before anything is loaded, otherwise exactly that filename
is opened with ffi.dlopen, with no fallback search. -/
def pkg_resolve_library (platform : String) : Except PyErr String :=
  match LIBRARY_NAMES_pkg platform with
  | none => Except.error (PyErr.runtimeError ("Unsupported platform: " ++ platform))
  | some lib_name => Except.ok lib_name

/-- LIBRARY_NAMES of src/lib-python/lib.py. Note the darwin entry differs
from the packaged module's table. -/
def LIBRARY_NAMES_lib (platform : String) : Option String :=
  if platform = "win32" then some "kson.dll"
  else if platform = "darwin" then some "kson.dylib"
  else if platform = "linux" then some "libkson.so"
  else none

/-- Library resolution in lib.py: ffi.dlopen(LIBRARY_NAMES.get(sys.platform))
is called directly, so for a platform absent from the table the value None is
passed to ffi.dlopen, which loads the running process's own symbols instead
of raising a platform error. The returned value is the argument handed to
dlopen. -/
def lib_dlopen_argument (platform : String) : Option String :=
  LIBRARY_NAMES_lib platform

/-- C4 counterexample: the repository consults two different
platform-to-filename mappings (they even disagree on the darwin filename),
and in lib.py an unlisted platform does not fail fast with a specific error:
None is passed straight to ffi.dlopen. -/
theorem library_resolution_counterexample :
    lib_dlopen_argument "freebsd" = none ∧
    LIBRARY_NAMES_pkg "darwin" ≠ LIBRARY_NAMES_lib "darwin" := by
  constructor
  · rfl
  · decide

/-- C4 as amended: the packaged kson module consults its single three-entry
mapping and, for every platform absent from it, fails fast with a
RuntimeError naming the platform before any call into the embedded runtime;
for present platforms exactly the mapped filename is used with no fallback.
The separate lib.py script consults its own three-entry mapping (darwin maps
to a different filename there) and for absent platforms passes None to
ffi.dlopen without raising a platform-specific error. -/
theorem library_resolution_amended :
    (∀ p, LIBRARY_NAMES_pkg p = none →
      pkg_resolve_library p = Except.error (PyErr.runtimeError ("Unsupported platform: " ++ p))) ∧
    (∀ p n, LIBRARY_NAMES_pkg p = some n → pkg_resolve_library p = Except.ok n) ∧
    LIBRARY_NAMES_pkg "win32" = some "kson.dll" ∧
    LIBRARY_NAMES_pkg "darwin" = some "libkson.dylib" ∧
    LIBRARY_NAMES_pkg "linux" = some "libkson.so" ∧
    (∀ p, p ≠ "win32" → p ≠ "darwin" → p ≠ "linux" → LIBRARY_NAMES_pkg p = none) ∧
    LIBRARY_NAMES_lib "darwin" = some "kson.dylib" ∧
    (∀ p, LIBRARY_NAMES_lib p = none → lib_dlopen_argument p = none) := by
  refine ⟨?_, ?_, rfl, rfl, rfl, ?_, rfl, ?_⟩
  · intro p hp
    simp [pkg_resolve_library, hp]
  · intro p n hp
    simp [pkg_resolve_library, hp]
  · intro p h1 h2 h3
    simp [LIBRARY_NAMES_pkg, h1, h2, h3]
  · intro p hp
    simp [lib_dlopen_argument, hp]

/-- Closed witness for C4 as amended: resolution on the unlisted platform
freebsd and on the listed platform linux. -/
theorem library_resolution_amended_witness :
    pkg_resolve_library "freebsd"
      = Except.error (PyErr.runtimeError ("Unsupported platform: " ++ "freebsd")) ∧
    pkg_resolve_library "linux" = Except.ok "libkson.so" ∧
    LIBRARY_NAMES_pkg "plan9" = none :=
  ⟨library_resolution_amended.1 "freebsd" rfl,
   library_resolution_amended.2.1 "linux" "libkson.so" rfl,
   library_resolution_amended.2.2.2.2.2.1 "plan9" (by decide) (by decide) (by decide)⟩

/-- A Python str is modelled as its list of code points. A code point is a
Unicode scalar value (encodable by the utf-16-le codec) iff it is below the
surrogate range or above it and below 0x110000. -/
def isScalarValue (c : Nat) : Bool :=
  decide (c < 0xD800) || (decide (0xE000 ≤ c) && decide (c < 0x110000))

/-- The utf-16-le code units of one scalar value: code points below 0x10000
are one unit, the rest become a high/low surrogate pair. -/
def encodeScalarUtf16 (c : Nat) : List Nat :=
  if c < 0x10000 then [c]
  else [0xD800 + (c - 0x10000) / 0x400, 0xDC00 + (c - 0x10000) % 0x400]

/-- All utf-16 code units of a string; this is the embedded java.lang.String
content created by NewString. -/
def utf16Units (s : List Nat) : List Nat :=
  s.flatMap encodeScalarUtf16

/-- Little-endian byte serialization of one 16-bit code unit. -/
def unitLeBytes (u : Nat) : List Nat :=
  [u % 256, u / 256]

def unitsToBytes (us : List Nat) : List Nat :=
  us.flatMap unitLeBytes

/-- Reassembling 16-bit little-endian units from a byte buffer, as done by
the jchar cast in NewString and by the utf-16-le codec. -/
def bytesToUnits : List Nat → List Nat
  | b0 :: b1 :: rest => (b0 + 256 * b1) :: bytesToUnits rest
  | _ => []

/-- s.encode("utf-16-le"): per code point, its code units serialized to
little-endian bytes, concatenated in order; None models the
UnicodeEncodeError raised on a lone surrogate or out-of-range code point. -/
def pyEncodeUtf16le (s : List Nat) : Option (List Nat) :=
  if s.all isScalarValue then
    some (s.flatMap (fun c => unitsToBytes (encodeScalarUtf16 c)))
  else none

/-- _python_str_to_java_string: encodes to utf-16-le bytes, checks the byte
length is divisible by 2, and calls NewString over the 16-bit units (the
AttachedJniThread plumbing around NewString is the machinery proved reentrant
above and does not affect the produced string value). -/
def python_str_to_java_string (s : List Nat) : Except PyErr (List Nat) :=
  match pyEncodeUtf16le s with
  | none => Except.error PyErr.unicodeEncodeError
  | some utf16_bytes =>
    if utf16_bytes.length % 2 = 0 then Except.ok (bytesToUnits utf16_bytes)
    else Except.error
      (PyErr.runtimeError "entered unreachable code: raw string length was not divisible by 2")

/-- Strict utf-16 decoding of a unit sequence: a non-surrogate unit stands
alone, a high surrogate must be followed by a low surrogate and the pair is
recombined, and any lone surrogate is a decode error. -/
def decodeUnitsStrict : List Nat → Option (List Nat)
  | [] => some []
  | u :: rest =>
    if u < 0xD800 ∨ 0xE000 ≤ u then
      (decodeUnitsStrict rest).map (fun t => u :: t)
    else if u < 0xDC00 then
      match rest with
      | [] => none
      | lo :: rest2 =>
        if 0xDC00 ≤ lo ∧ lo < 0xE000 then
          (decodeUnitsStrict rest2).map
            (fun t => (0x10000 + (u - 0xD800) * 0x400 + (lo - 0xDC00)) :: t)
        else none
    else none

/-- bytes.decode("utf-16-le", "strict"): odd buffers and ill-formed unit
sequences are decode errors. -/
def decodeUtf16leStrict (bytes : List Nat) : Option (List Nat) :=
  if bytes.length % 2 = 0 then decodeUnitsStrict (bytesToUnits bytes) else none

/-- _java_string_to_python_str: GetStringChars exposes the string's units,
GetStringLength * 2 bytes are read from the buffer, and the bytes are decoded
with the strict utf-16-le codec. -/
def java_string_to_python_str (j : List Nat) : Except PyErr (List Nat) :=
  match decodeUtf16leStrict (unitsToBytes j) with
  | some s => Except.ok s
  | none => Except.error PyErr.unicodeDecodeError

theorem unitsToBytes_append (a b : List Nat) :
    unitsToBytes (a ++ b) = unitsToBytes a ++ unitsToBytes b := by
  simp [unitsToBytes]

theorem unitsToBytes_length (us : List Nat) :
    (unitsToBytes us).length = 2 * us.length := by
  induction us with
  | nil => rfl
  | cons u rest ih =>
    simp [unitsToBytes, unitLeBytes, List.flatMap] at ih ⊢
    omega

theorem perChar_bytes (s : List Nat) :
    s.flatMap (fun c => unitsToBytes (encodeScalarUtf16 c)) = unitsToBytes (utf16Units s) := by
  induction s with
  | nil => rfl
  | cons c rest ih =>
    simp only [utf16Units, List.flatMap_cons] at ih ⊢
    rw [unitsToBytes_append, ih]

theorem bytesToUnits_unitsToBytes (us : List Nat) (h : ∀ u ∈ us, u < 0x10000) :
    bytesToUnits (unitsToBytes us) = us := by
  induction us with
  | nil => rfl
  | cons u rest ih =>
    have hu : u % 256 + 256 * (u / 256) = u := Nat.mod_add_div u 256
    have : unitsToBytes (u :: rest) = u % 256 :: u / 256 :: unitsToBytes rest := by
      simp [unitsToBytes, unitLeBytes]
    rw [this, bytesToUnits, hu, ih (fun v hv => h v (List.mem_cons_of_mem u hv))]

theorem utf16Units_lt (s : List Nat) (h : s.all isScalarValue = true) :
    ∀ u ∈ utf16Units s, u < 0x10000 := by
  induction s with
  | nil => simp [utf16Units]
  | cons c rest ih =>
    simp only [List.all_cons, Bool.and_eq_true] at h
    intro u hu
    simp only [utf16Units, List.flatMap_cons, List.mem_append] at hu
    rcases hu with hu | hu
    · by_cases hc : c < 0x10000
      · simp [encodeScalarUtf16, hc] at hu
        omega
      · have hc2 : c < 0x110000 := by
          have := h.1
          simp [isScalarValue] at this
          omega
        simp [encodeScalarUtf16, hc] at hu
        have hdiv : (c - 0x10000) / 0x400 < 0x400 := by
          apply Nat.div_lt_of_lt_mul
          omega
        have hmod : (c - 0x10000) % 0x400 < 0x400 := Nat.mod_lt _ (by omega)
        omega
    · exact ih h.2 u hu

theorem decodeUnitsStrict_utf16Units (s : List Nat) (h : s.all isScalarValue = true) :
    decodeUnitsStrict (utf16Units s) = some s := by
  induction s with
  | nil => rfl
  | cons c rest ih =>
    simp only [List.all_cons, Bool.and_eq_true] at h
    have hsc := h.1
    simp only [isScalarValue, Bool.or_eq_true, Bool.and_eq_true, decide_eq_true_eq] at hsc
    have hrest2 : decodeUnitsStrict (rest.flatMap encodeScalarUtf16) = some rest := by
      simpa [utf16Units] using ih h.2
    by_cases hc : c < 0x10000
    · have hns : c < 0xD800 ∨ 0xE000 ≤ c := by omega
      simp only [utf16Units, List.flatMap_cons, encodeScalarUtf16, if_pos hc,
        List.singleton_append]
      rw [decodeUnitsStrict.eq_def]
      simp only []
      rw [if_pos hns, hrest2]
      rfl
    · have hc2 : c < 0x110000 := by omega
      have hdiv : (c - 0x10000) / 0x400 < 0x400 := by
        apply Nat.div_lt_of_lt_mul
        omega
      have hmod : (c - 0x10000) % 0x400 < 0x400 := Nat.mod_lt _ (by omega)
      have hdm := Nat.div_add_mod (c - 0x10000) 0x400
      simp only [utf16Units, List.flatMap_cons, encodeScalarUtf16, if_neg hc]
      rw [List.cons_append, List.cons_append, List.nil_append, decodeUnitsStrict.eq_def]
      have h1 : ¬(0xD800 + (c - 0x10000) / 0x400 < 0xD800 ∨
          0xE000 ≤ 0xD800 + (c - 0x10000) / 0x400) := by omega
      have h2 : 0xD800 + (c - 0x10000) / 0x400 < 0xDC00 := by omega
      have h3 : 0xDC00 ≤ 0xDC00 + (c - 0x10000) % 0x400 ∧
          0xDC00 + (c - 0x10000) % 0x400 < 0xE000 := by omega
      simp only [if_neg h1, if_pos h2, if_pos h3]
      have hcomb : 0x10000 + (0xD800 + (c - 0x10000) / 0x400 - 0xD800) * 0x400 +
          (0xDC00 + (c - 0x10000) % 0x400 - 0xDC00) = c := by omega
      rw [hcomb, hrest2]
      rfl

/-- C3: for every valid Unicode host string, converting it to an embedded
java.lang.String with _python_str_to_java_string and converting the result
back with _java_string_to_python_str yields exactly the original string: the
UTF-16 re-encoding round trip is lossless. -/
theorem string_round_trip (s : List Nat) (h : s.all isScalarValue = true) :
    python_str_to_java_string s = Except.ok (utf16Units s) ∧
    java_string_to_python_str (utf16Units s) = Except.ok s := by
  have hlt := utf16Units_lt s h
  have hcancel := bytesToUnits_unitsToBytes (utf16Units s) hlt
  have heven : (unitsToBytes (utf16Units s)).length % 2 = 0 := by
    rw [unitsToBytes_length]
    omega
  constructor
  · simp only [python_str_to_java_string, pyEncodeUtf16le, h, if_pos, perChar_bytes,
      heven, if_true, hcancel]
  · simp only [java_string_to_python_str, decodeUtf16leStrict, heven, if_true, hcancel,
      decodeUnitsStrict_utf16Units s h]

/-- Closed witness for C3: the string "kson" followed by U+1F600, which
exercises both the single-unit and the surrogate-pair path. -/
theorem string_round_trip_witness :
    python_str_to_java_string [107, 115, 111, 110, 128512]
      = Except.ok (utf16Units [107, 115, 111, 110, 128512]) ∧
    java_string_to_python_str (utf16Units [107, 115, 111, 110, 128512])
      = Except.ok [107, 115, 111, 110, 128512] :=
  string_round_trip [107, 115, 111, 110, 128512] (by decide)

/-- C10: the odd-byte-length error branch of _python_str_to_java_string is
unreachable: whenever s.encode("utf-16-le") produces bytes at all, their
number is even, so the function never raises the RuntimeError about a raw
string length not divisible by 2. -/
theorem utf16_length_always_even (s : List Nat) :
    (∀ bytes, pyEncodeUtf16le s = some bytes → bytes.length % 2 = 0) ∧
    python_str_to_java_string s ≠ Except.error
      (PyErr.runtimeError "entered unreachable code: raw string length was not divisible by 2") := by
  have hkey : ∀ bytes, pyEncodeUtf16le s = some bytes → bytes.length % 2 = 0 := by
    intro bytes hb
    simp only [pyEncodeUtf16le] at hb
    by_cases hall : s.all isScalarValue
    · simp only [hall, if_true, Option.some.injEq] at hb
      subst hb
      rw [perChar_bytes, unitsToBytes_length]
      omega
    · simp [hall] at hb
  refine ⟨hkey, ?_⟩
  simp only [python_str_to_java_string]
  cases henc : pyEncodeUtf16le s with
  | none => simp
  | some bytes =>
    simp [hkey bytes henc]

/-- Closed witness for C10 at a concrete input. -/
theorem utf16_length_always_even_witness :
    (pyEncodeUtf16le [97, 10003] = some (unitsToBytes (utf16Units [97, 10003])) →
      (unitsToBytes (utf16Units [97, 10003])).length % 2 = 0) ∧
    python_str_to_java_string [97, 10003] ≠ Except.error
      (PyErr.runtimeError "entered unreachable code: raw string length was not divisible by 2") :=
  ⟨(utf16_length_always_even [97, 10003]).1 (unitsToBytes (utf16Units [97, 10003])),
   (utf16_length_always_even [97, 10003]).2⟩

/-- A host value as seen by the list marshaler: either a wrapper object
carrying a _jni_ref attribute, a plain Python str, or anything else. -/
inductive PyVal where
  | wrapped (ref : Nat) : PyVal
  | pystr (s : List Nat) : PyVal
  | other : PyVal
deriving DecidableEq, Repr

/-- hasattr(item, "_jni_ref"). -/
def has_jni_ref_attr : PyVal → Bool
  | PyVal.wrapped _ => true
  | _ => false

/-- The add loop of _to_kotlin_list: each item's _jni_ref is appended to the
fresh ArrayList in order; an item without a _jni_ref attribute raises
TypeError. -/
def to_kotlin_list_loop (array_list : List Nat) : List PyVal → Except PyErr (List Nat)
  | [] => Except.ok array_list
  | item :: rest =>
    match item with
    | PyVal.wrapped r => to_kotlin_list_loop (array_list ++ [r]) rest
    | _ => Except.error PyErr.typeError

/-- _to_kotlin_list: constructs a fresh empty ArrayList and adds each
element's reference to it in order (the AttachedJniThread scope and the JNI
add calls affect only the trace, not the produced list content). -/
def to_kotlin_list (l : List PyVal) : Except PyErr (List Nat) :=
  to_kotlin_list_loop [] l

/-- _from_kotlin_list: drains the embedded list through its iterator
(hasNext/next) and wraps each element with wrap_item_fn, in order. -/
def from_kotlin_list (wrap_item_fn : Nat → PyVal) : List Nat → List PyVal
  | [] => []
  | r :: rest => wrap_item_fn r :: from_kotlin_list wrap_item_fn rest

theorem to_kotlin_list_loop_spec (wrap_item_fn : Nat → PyVal) (l : List PyVal)
    (hconv : ∀ v ∈ l, ∃ r, v = PyVal.wrapped r ∧ wrap_item_fn r = v) :
    ∀ acc : List Nat, ∃ refs, to_kotlin_list_loop acc l = Except.ok (acc ++ refs) ∧
      from_kotlin_list wrap_item_fn refs = l ∧ refs.length = l.length := by
  induction l with
  | nil => exact fun acc => ⟨[], by simp [to_kotlin_list_loop], rfl, rfl⟩
  | cons v rest ih =>
    intro acc
    obtain ⟨r, hv, hw⟩ := hconv v (List.mem_cons_self v rest)
    obtain ⟨refs, hloop, hfrom, hlen⟩ :=
      ih (fun u hu => hconv u (List.mem_cons_of_mem v hu)) (acc ++ [r])
    refine ⟨r :: refs, ?_, ?_, ?_⟩
    · rw [hv, to_kotlin_list_loop, hloop, List.append_assoc, List.singleton_append]
    · rw [from_kotlin_list, hfrom, hw]
    · simp [hlen]

/-- C8: for every finite host list of convertible elements (each carrying a
_jni_ref, with wrap_item_fn re-wrapping that reference to an equal host
value), converting with _to_kotlin_list and back with _from_kotlin_list
yields a host list with the same length, the same order, and per-element
equality with the original. -/
theorem list_round_trip (wrap_item_fn : Nat → PyVal) (l : List PyVal)
    (hconv : ∀ v ∈ l, ∃ r, v = PyVal.wrapped r ∧ wrap_item_fn r = v) :
    ∃ refs, to_kotlin_list l = Except.ok refs ∧
      from_kotlin_list wrap_item_fn refs = l ∧ refs.length = l.length := by
  obtain ⟨refs, hloop, hfrom, hlen⟩ := to_kotlin_list_loop_spec wrap_item_fn l hconv []
  exact ⟨refs, by simpa [to_kotlin_list] using hloop, hfrom, hlen⟩

/-- Closed witness for C8: a two-element list of wrapped references with the
wrapper constructor as the item wrapper. -/
theorem list_round_trip_witness :
    ∃ refs, to_kotlin_list [PyVal.wrapped 5, PyVal.wrapped 7] = Except.ok refs ∧
      from_kotlin_list PyVal.wrapped refs = [PyVal.wrapped 5, PyVal.wrapped 7] ∧
      refs.length = (([PyVal.wrapped 5, PyVal.wrapped 7] : List PyVal)).length :=
  list_round_trip PyVal.wrapped [PyVal.wrapped 5, PyVal.wrapped 7]
    (by
      intro v hv
      simp only [List.mem_cons, List.not_mem_nil, or_false] at hv
      rcases hv with rfl | rfl
      · exact ⟨5, rfl, rfl⟩
      · exact ⟨7, rfl, rfl⟩)

end Kson
